import Mathlib

/-!
Shallow embedding of the nightscout-cli program (src/nightscout_cli/main.py):
a command-line client with two commands, `get` (latest reading) and `history`
(a time window of readings), over one authenticated HTTP GET.

Modelling conventions:
  * JSON scalar values are `JVal`; an API entry is an association list of
    string keys to scalar values, as every field the program touches is scalar.
  * Naive `datetime` values are integer seconds since the Unix epoch;
    `timedelta(days=d)` is `d * 86400` seconds, `timedelta(minutes=m)` is
    `m * 60` seconds. `datetime.isoformat` is implemented over the proleptic
    Gregorian calendar (civil-from-days).
  * The single HTTP exchange is a `Transport` value: a connection error, or a
    response with a status code and a body that either decodes as a list of
    entries or is malformed JSON (`none`).
  * `requests.Response.raise_for_status` raises exactly for status codes in
    [400, 600); `requests.RequestException` (which covers connection errors,
    HTTPError and JSON decode errors) is caught by `api_get`, printed to
    stderr as `Error: ...` and turns into `sys.exit(1)`.
  * A Python-level uncaught exception (KeyError / ValueError / AttributeError
    in a handler) is the `Outcome.uncaught` case, distinct from `sys.exit`.
-/

namespace NightscoutCLI

/-- JSON scalar values, the only shapes of entry fields the program reads. -/
inductive JVal where
  | null
  | bool (b : Bool)
  | num (n : Int)
  | str (s : String)
deriving DecidableEq, Repr

/-- One API entry: a JSON object with scalar fields, as an association list. -/
abbrev Entry := List (String × JVal)

/-- Python `dict` key lookup (first binding wins; Python keys are unique). -/
def dictLookup (e : Entry) (k : String) : Option JVal :=
  List.lookup k e

/-- Python `entry.get(k, default)`. -/
def pyGet (e : Entry) (k : String) (dflt : JVal) : JVal :=
  (dictLookup e k).getD dflt

/-- Python `entry.get(k)`: missing keys give `None`. -/
def pyGetNone (e : Entry) (k : String) : JVal :=
  (dictLookup e k).getD .null

/-- Python `str()` of the scalar values the program interpolates in f-strings. -/
def pyStr : JVal → String
  | .null => "None"
  | .bool b => if b then "True" else "False"
  | .num n => toString n
  | .str s => s

/-- Hexadecimal digit, for `json.dumps` unicode escapes. -/
def hexDigit (n : Nat) : Char :=
  if n < 10 then Char.ofNat (48 + n) else Char.ofNat (87 + n)

/-- `\uXXXX`, as emitted by `json.dumps` with its default `ensure_ascii`. -/
def uEscape (n : Nat) : String :=
  "\\u" ++ String.mk [hexDigit (n / 4096 % 16), hexDigit (n / 256 % 16),
    hexDigit (n / 16 % 16), hexDigit (n % 16)]

/-- `json.dumps` escaping of one character of a string. -/
def jsonEscapeChar (c : Char) : String :=
  if c = '"' then "\\\""
  else if c = '\\' then "\\\\"
  else if c = '\n' then "\\n"
  else if c = '\t' then "\\t"
  else if c = '\r' then "\\r"
  else if c.toNat < 32 then uEscape c.toNat
  else if c.toNat < 127 then String.singleton c
  else if c.toNat < 65536 then uEscape c.toNat
  else uEscape (55296 + (c.toNat - 65536) / 1024) ++ uEscape (56320 + (c.toNat - 65536) % 1024)

/-- `json.dumps` rendering of a string body. -/
def jsonEscape (s : String) : String :=
  String.join (s.toList.map jsonEscapeChar)

/-- `json.dumps` rendering of a scalar value. -/
def jsonDumpVal : JVal → String
  | .null => "null"
  | .bool b => if b then "true" else "false"
  | .num n => toString n
  | .str s => "\"" ++ jsonEscape s ++ "\""

/-- `json.dumps` of a flat JSON object, with the default separators. -/
def jsonDumps (kvs : List (String × JVal)) : String :=
  "\x7b" ++ String.intercalate ", "
      (kvs.map fun kv => "\"" ++ jsonEscape kv.1 ++ "\": " ++ jsonDumpVal kv.2)
    ++ "\x7d"

/-! ## Time model -/

/-- `timedelta(days=d)` in seconds. -/
def timedeltaDays (d : Int) : Int := d * 86400

/-- `timedelta(minutes=m)` in seconds. -/
def timedeltaMinutes (m : Int) : Int := m * 60

/-- `end_time = datetime.now() - timedelta(days=args.days_ago)`. -/
def historyEndTime (now daysAgo : Int) : Int :=
  now - timedeltaDays daysAgo

/-- `start_time = end_time - timedelta(minutes=args.period)`. -/
def historyStartTime (now daysAgo period : Int) : Int :=
  historyEndTime now daysAgo - timedeltaMinutes period

/-- Civil date from a day count relative to 1970-01-01 (proleptic Gregorian). -/
def civilFromDays (z0 : Int) : Int × Nat × Nat :=
  let z := z0 + 719468
  let era : Int := z.fdiv 146097
  let doe : Nat := (z - era * 146097).toNat
  let yoe : Nat := (doe - doe / 1460 + doe / 36524 - doe / 146096) / 365
  let doy : Nat := doe - (365 * yoe + yoe / 4 - yoe / 100)
  let mp : Nat := (5 * doy + 2) / 153
  let d : Nat := doy - (153 * mp + 2) / 5 + 1
  let m : Nat := if mp < 10 then mp + 3 else mp - 9
  ((yoe : Int) + era * 400 + (if m ≤ 2 then 1 else 0), m, d)

/-- Two-digit zero padding. -/
def pad2 (n : Nat) : String :=
  if n < 10 then "0" ++ toString n else toString n

/-- Four-digit zero padding of a year. -/
def pad4 (n : Int) : String :=
  let s := toString n
  if n < 0 then s else String.mk (List.replicate (4 - s.length) '0') ++ s

/-- Six-digit zero padding of a microsecond count. -/
def pad6 (n : Nat) : String :=
  let s := toString n
  String.mk (List.replicate (6 - s.length) '0') ++ s

/-- `datetime.isoformat()` of a naive datetime held as epoch seconds. -/
def naiveIsoformat (t : Int) : String :=
  let days := t.fdiv 86400
  let sod := (t.fmod 86400).toNat
  let c := civilFromDays days
  pad4 c.1 ++ "-" ++ pad2 c.2.1 ++ "-" ++ pad2 c.2.2 ++ "T" ++
    pad2 (sod / 3600) ++ ":" ++ pad2 (sod % 3600 / 60) ++ ":" ++ pad2 (sod % 60)

/-! ## Request construction -/

/-- The observable shape of the one authenticated GET request. -/
structure HttpRequest where
  url : String
  headers : List (String × String)
  queryParams : List (String × String)
deriving DecidableEq, Repr

/-- `api_get`'s request: `requests.get(f"{base_url}{endpoint}", headers={"API-SECRET": api_secret}, params=params)`. -/
def apiRequest (baseUrl apiSecret endpoint : String)
    (params : List (String × String)) : HttpRequest :=
  ⟨baseUrl ++ endpoint, [("API-SECRET", apiSecret)], params⟩

/-- `base_url = f"http://{args.host}:{args.port}"`. -/
def mkBaseUrl (host port : String) : String :=
  "http://" ++ host ++ ":" ++ port

/-- `cmd_get`'s query parameters: `{"count": 1}`. -/
def getParams : List (String × String) := [("count", "1")]

/-- `cmd_history`'s query parameters: the `$gte`/`$lte` range with a literal
`Z` appended to each naive isoformat string, plus `count: 10000`. -/
def historyParams (now daysAgo period : Int) : List (String × String) :=
  [("find[dateString][$gte]", naiveIsoformat (historyStartTime now daysAgo period) ++ "Z"),
   ("find[dateString][$lte]", naiveIsoformat (historyEndTime now daysAgo) ++ "Z"),
   ("count", "10000")]

/-- The request issued by `cmd_get`. -/
def cmdGetRequest (host port secret : String) : HttpRequest :=
  apiRequest (mkBaseUrl host port) secret "/api/v1/entries.json" getParams

/-- The request issued by `cmd_history`. -/
def cmdHistoryRequest (host port secret : String)
    (now daysAgo period : Int) : HttpRequest :=
  apiRequest (mkBaseUrl host port) secret "/api/v1/entries.json"
    (historyParams now daysAgo period)

/-! ## Transport and the `api_get` wrapper -/

/-- Result of the single `requests.get` exchange, after redirect handling:
either the request raised a connection-level `RequestException`, or a response
arrived with a status code and a body. A body of `none` is one that
`response.json()` fails to decode; `some entries` is a decoded JSON array of
entry objects. -/
inductive Transport where
  | connError (msg : String)
  | response (status : Nat) (body : Option (List Entry))

/-- A 2xx (success-class) HTTP status. -/
def is2xx (status : Nat) : Bool :=
  200 ≤ status ∧ status < 300

/-- `requests.Response.raise_for_status` raises exactly for 4xx and 5xx. -/
def raisesForStatus (status : Nat) : Bool :=
  400 ≤ status ∧ status < 600

/-- The message of the `HTTPError` raised by `raise_for_status`. -/
def httpErrorMessage (status : Nat) : String :=
  if status < 500 then toString status ++ " Client Error"
  else toString status ++ " Server Error"

/-- `api_get`'s control flow after the request: a `RequestException`
(connection error, `HTTPError` from `raise_for_status`, or JSON decode
failure) becomes stderr text `Error: ...` and `sys.exit(1)`; otherwise the
decoded body is returned to the calling handler. -/
def apiGetResult (t : Transport) : Except String (List Entry) :=
  match t with
  | .connError msg => .error ("Error: " ++ msg)
  | .response status body =>
    if raisesForStatus status then
      .error ("Error: " ++ httpErrorMessage status)
    else
      match body with
      | none => .error "Error: Expecting value: line 1 column 1 (char 0)"
      | some entries => .ok entries

/-- How the process ended: `sys.exit(code)`, or a Python exception that no
handler catches (which prints a traceback and exits 1 through the interpreter,
not through the program's error path). -/
inductive Outcome where
  | exited (code : Nat)
  | uncaught (exc : String)
deriving DecidableEq, Repr

/-- Observable result of one process invocation. -/
structure ProcResult where
  stdout : List String
  stderr : List String
  outcome : Outcome
deriving DecidableEq, Repr

/-! ## `datetime.fromisoformat` and aware `isoformat` -/

/-- A Python `datetime` value, possibly timezone-aware. -/
structure PyDateTime where
  year : Nat
  month : Nat
  day : Nat
  hour : Nat
  minute : Nat
  second : Nat
  microsecond : Nat
  tzOffsetMinutes : Option Int
deriving DecidableEq, Repr

/-- Decimal digit value of a character, if any. -/
def digitVal (c : Char) : Option Nat :=
  if '0' ≤ c ∧ c ≤ '9' then some (c.toNat - 48) else none

/-- Parse exactly `n` decimal digits. -/
def parseFixedNat : Nat → Nat → List Char → Option (Nat × List Char)
  | 0, acc, cs => some (acc, cs)
  | _ + 1, _, [] => none
  | n + 1, acc, c :: cs =>
    match digitVal c with
    | some d => parseFixedNat n (acc * 10 + d) cs
    | none => none

/-- Consume one expected character. -/
def expectChar (c : Char) : List Char → Option (List Char)
  | c2 :: cs => if c2 = c then some cs else none
  | [] => none

/-- Consume a maximal run of digits, returning value, count, and rest. -/
def takeDigits : Nat → Nat → List Char → Nat × Nat × List Char
  | acc, cnt, [] => (acc, cnt, [])
  | acc, cnt, c :: cs =>
    match digitVal c with
    | some d => takeDigits (acc * 10 + d) (cnt + 1) cs
    | none => (acc, cnt, c :: cs)

/-- Gregorian leap year. -/
def isLeapYear (y : Nat) : Bool :=
  (y % 4 = 0 ∧ y % 100 ≠ 0) ∨ y % 400 = 0

/-- Length of a month, as validated by the `datetime` constructor. -/
def daysInMonth (y m : Nat) : Nat :=
  if m = 2 then (if isLeapYear y then 29 else 28)
  else if m = 4 ∨ m = 6 ∨ m = 9 ∨ m = 11 then 30
  else 31

/-- Parse `HH[:MM[:SS[.f{1,6}]]]`, giving hour, minute, second, microsecond. -/
def parseTimePart (cs0 : List Char) : Option (Nat × Nat × Nat × Nat × List Char) := do
  let (h, cs1) ← parseFixedNat 2 0 cs0
  match expectChar ':' cs1 with
  | none => some (h, 0, 0, 0, cs1)
  | some cs2 => do
    let (mi, cs3) ← parseFixedNat 2 0 cs2
    match expectChar ':' cs3 with
    | none => some (h, mi, 0, 0, cs3)
    | some cs4 => do
      let (s, cs5) ← parseFixedNat 2 0 cs4
      match expectChar '.' cs5 with
      | none => some (h, mi, s, 0, cs5)
      | some cs6 =>
        let r := takeDigits 0 0 cs6
        if 1 ≤ r.2.1 ∧ r.2.1 ≤ 6 then
          some (h, mi, s, r.1 * 10 ^ (6 - r.2.1), r.2.2)
        else none

/-- Parse an optional UTC offset `±HH:MM` (or `Z`), in minutes. -/
def parseTzOffset (cs : List Char) : Option (Option Int × List Char) :=
  match cs with
  | [] => some (none, [])
  | c :: cs2 =>
    if c = '+' ∨ c = '-' then do
      let (oh, cs3) ← parseFixedNat 2 0 cs2
      let cs4 ← expectChar ':' cs3
      let (om, cs5) ← parseFixedNat 2 0 cs4
      if oh ≤ 23 ∧ om ≤ 59 then
        let total : Int := oh * 60 + om
        some (some (if c = '-' then -total else total), cs5)
      else none
    else if c = 'Z' then some (some 0, cs2)
    else some (none, c :: cs2)

/-- `datetime.fromisoformat`: strict `YYYY-MM-DD[<sep>HH[:MM[:SS[.ffffff]]]][±HH:MM]`,
with the field ranges the `datetime` constructor enforces; `none` models the
`ValueError` raised on any other string. -/
def fromisoformat (str : String) : Option PyDateTime := do
  let cs0 := str.toList
  let (y, cs1) ← parseFixedNat 4 0 cs0
  let cs2 ← expectChar '-' cs1
  let (mo, cs3) ← parseFixedNat 2 0 cs2
  let cs4 ← expectChar '-' cs3
  let (d, cs5) ← parseFixedNat 2 0 cs4
  let dateOk := 1 ≤ y ∧ y ≤ 9999 ∧ 1 ≤ mo ∧ mo ≤ 12 ∧ 1 ≤ d ∧ d ≤ daysInMonth y mo
  match cs5 with
  | [] => if dateOk then some ⟨y, mo, d, 0, 0, 0, 0, none⟩ else none
  | _sep :: cs6 => do
    let (h, mi, s, us, cs7) ← parseTimePart cs6
    let (tz, cs8) ← parseTzOffset cs7
    match cs8 with
    | [] =>
      if dateOk ∧ h ≤ 23 ∧ mi ≤ 59 ∧ s ≤ 59 then
        some ⟨y, mo, d, h, mi, s, us, tz⟩
      else none
    | _ => none

/-- `timezone.isoformat` suffix for a fixed offset in minutes. -/
def offsetIso (off : Int) : String :=
  if off < 0 then "-" ++ pad2 ((-off).toNat / 60) ++ ":" ++ pad2 ((-off).toNat % 60)
  else "+" ++ pad2 (off.toNat / 60) ++ ":" ++ pad2 (off.toNat % 60)

/-- `datetime.isoformat()` of a parsed (possibly aware) datetime. -/
def pyIsoformat (dt : PyDateTime) : String :=
  pad4 (dt.year : Int) ++ "-" ++ pad2 dt.month ++ "-" ++ pad2 dt.day ++ "T" ++
    pad2 dt.hour ++ ":" ++ pad2 dt.minute ++ ":" ++ pad2 dt.second ++
    (if dt.microsecond = 0 then "" else "." ++ pad6 dt.microsecond) ++
    (match dt.tzOffsetMinutes with
     | none => ""
     | some off => offsetIso off)

/-- Python `str.replace(old, new)` for a one-character `old`, as in
`entry["dateString"].replace("Z", "+00:00")`. -/
def pyReplaceChar (s : String) (old : Char) (new : String) : String :=
  String.join (s.toList.map fun c => if c = old then new else String.singleton c)

/-! ## Command handlers -/

/-- How a handler body ends once it has the decoded entries: normal
completion with its stdout lines, or an uncaught Python exception. -/
inductive CmdOut where
  | finished (stdoutLines : List String)
  | raised (exc : String)
deriving DecidableEq, Repr

/-- `cmd_get` after `api_get` returns: empty list prints `No data available`;
otherwise `entries[0]["dateString"]` (KeyError if missing, AttributeError if
not a string) is `Z`-replaced, parsed with `fromisoformat` (ValueError on
failure), and one formatted line is printed. -/
def cmdGetOutput (entries : List Entry) : CmdOut :=
  match entries with
  | [] => .finished ["No data available"]
  | entry :: _ =>
    match dictLookup entry "dateString" with
    | none => .raised "KeyError: dateString"
    | some (.str ds) =>
      match fromisoformat (pyReplaceChar ds 'Z' "+00:00") with
      | none => .raised "ValueError: Invalid isoformat string"
      | some ts =>
        .finished [pyIsoformat ts ++ " " ++ pyStr (pyGet entry "sgv" (.str "N/A")) ++ " "
          ++ pyStr (pyGet entry "units" (.str "mg/dL")) ++ " "
          ++ pyStr (pyGet entry "direction" (.str ""))]
    | some _ => .raised "AttributeError: replace"

/-- The JSON object `cmd_history` builds per entry in `--jsonl` mode. -/
def jsonlObj (entry : Entry) : List (String × JVal) :=
  [("timestamp", pyGetNone entry "dateString"),
   ("sgv", pyGetNone entry "sgv"),
   ("units", pyGet entry "units" (.str "mg/dL")),
   ("direction", pyGet entry "direction" (.str ""))]

/-- One `--jsonl` output line: `json.dumps` of the object. -/
def jsonlLine (entry : Entry) : String :=
  jsonDumps (jsonlObj entry)

/-- One human-readable `history` output line: timestamp, value, units. -/
def humanLine (entry : Entry) : String :=
  pyStr (pyGetNone entry "dateString") ++ " " ++ pyStr (pyGet entry "sgv" (.str "N/A"))
    ++ " " ++ pyStr (pyGet entry "units" (.str "mg/dL"))

/-- `cmd_history` after `api_get` returns: one line per entry, in order,
formatted by the mode flag; no field access in it can raise. -/
def cmdHistoryOutput (jsonl : Bool) (entries : List Entry) : CmdOut :=
  .finished (entries.map (if jsonl then jsonlLine else humanLine))

/-! ## Whole-process runs -/

/-- Run one command against a mocked transport: `api_get` failure prints the
message to stderr and exits 1 before the handler sees anything; a handler
exception surfaces as an interpreter traceback, not the program's error path. -/
def runProcess (handler : List Entry → CmdOut) (t : Transport) : ProcResult :=
  match apiGetResult t with
  | .error msg => ⟨[], [msg], .exited 1⟩
  | .ok entries =>
    match handler entries with
    | .finished lines => ⟨lines, [], .exited 0⟩
    | .raised exc => ⟨[], ["Traceback (most recent call last): " ++ exc], .uncaught exc⟩

/-- A full `get` invocation against a mocked transport. -/
def runGet (t : Transport) : ProcResult :=
  runProcess cmdGetOutput t

/-- A full `history` invocation against a mocked transport. -/
def runHistory (jsonl : Bool) (t : Transport) : ProcResult :=
  runProcess (cmdHistoryOutput jsonl) t

/-! ## CLI option resolution -/

/-- The process environment, as `os.environ.get`. -/
abbrev Env := String → Option String

/-- `os.environ.get(key, default)`. -/
def envGetD (env : Env) (k dflt : String) : String :=
  (env k).getD dflt

/-- `DEFAULT_API_SECRET = os.environ.get("NIGHTSCOUT_API_SECRET", "soilentgreenandblue")`. -/
def DEFAULT_API_SECRET (env : Env) : String :=
  envGetD env "NIGHTSCOUT_API_SECRET" "soilentgreenandblue"

/-- `DEFAULT_HOST = os.environ.get("NIGHTSCOUT_HOST", "127.0.0.1")`. -/
def DEFAULT_HOST (env : Env) : String :=
  envGetD env "NIGHTSCOUT_HOST" "127.0.0.1"

/-- `DEFAULT_PORT = os.environ.get("NIGHTSCOUT_PORT", "80")`. -/
def DEFAULT_PORT (env : Env) : String :=
  envGetD env "NIGHTSCOUT_PORT" "80"

/-- `args.host`: the explicit `--host` value if given, else argparse's default. -/
def resolvedHost (env : Env) (cli : Option String) : String :=
  cli.getD (DEFAULT_HOST env)

/-- `args.port`: the explicit `--port` value if given, else argparse's default. -/
def resolvedPort (env : Env) (cli : Option String) : String :=
  cli.getD (DEFAULT_PORT env)

/-- `args.api_secret`: the explicit `--api-secret` value if given, else argparse's default. -/
def resolvedApiSecret (env : Env) (cli : Option String) : String :=
  cli.getD (DEFAULT_API_SECRET env)

/-- The transport outcomes that `api_get` turns into the fatal error path:
a connection error, a status `raise_for_status` raises for, or a body
`response.json()` cannot decode. -/
def transportFails : Transport → Bool
  | .connError _ => true
  | .response status body => raisesForStatus status || body.isNone

/-! ## Helper lemmas -/

lemma historyEndTime_eq (now daysAgo : Int) :
    historyEndTime now daysAgo = now - daysAgo * 86400 := rfl

lemma historyStartTime_eq (now daysAgo period : Int) :
    historyStartTime now daysAgo period = now - daysAgo * 86400 - period * 60 := rfl

lemma errorMsg_ne_empty (m : String) : ("Error: " ++ m) ≠ "" := by
  intro h
  have hlen := congrArg String.length h
  simp [String.length_append] at hlen
  exact absurd hlen.1 (by decide)

/-! ## Claims -/

/-- Claim C1 (amended): for every history invocation, the end time is now
minus `daysAgo` days, the start time is the end time minus `period` minutes,
i.e. now minus `daysAgo` days minus `period` minutes, and start ≤ end holds
whenever `period` is nonnegative. -/
theorem claim_C1_time_range (now daysAgo period : Int) :
    historyEndTime now daysAgo = now - daysAgo * 86400 ∧
    historyStartTime now daysAgo period = historyEndTime now daysAgo - period * 60 ∧
    historyStartTime now daysAgo period = now - daysAgo * 86400 - period * 60 ∧
    (0 ≤ period → historyStartTime now daysAgo period ≤ historyEndTime now daysAgo) := by
  refine ⟨rfl, rfl, rfl, fun hp => ?_⟩
  rw [historyStartTime_eq, historyEndTime_eq]
  omega

/-- Witness for C1 at `now = 1000`, `daysAgo = 1`, `period = 2`. -/
theorem claim_C1_time_range_witness :
    historyEndTime 1000 1 = 1000 - 1 * 86400 ∧
    historyStartTime 1000 1 2 = 1000 - 1 * 86400 - 2 * 60 ∧
    historyStartTime 1000 1 2 ≤ historyEndTime 1000 1 := by
  have h := claim_C1_time_range 1000 1 2
  exact ⟨h.1, h.2.2.1, h.2.2.2 (by decide)⟩

/-- Claim C1 as stated is false: the parser accepts a negative `--period`
(argparse `type=int`), and for `daysAgo = 0`, `period = -1` the computed
start time exceeds the end time. -/
theorem claim_C1_counterexample :
    ¬ (historyStartTime 0 0 (-1) ≤ historyEndTime 0 0) := by decide

/-- Claim C2 (amended): a connection error, an HTTP status in 400–599, or a
malformed JSON body makes the process write one non-empty message to the
error stream, print nothing to stdout, and exit with status 1, for either
command, with no value returned to the command handler. -/
theorem claim_C2_transport_failure (t : Transport) (jsonl : Bool)
    (h : transportFails t = true) :
    ∃ msg, msg ≠ "" ∧ apiGetResult t = .error msg ∧
      runGet t = ⟨[], [msg], .exited 1⟩ ∧
      runHistory jsonl t = ⟨[], [msg], .exited 1⟩ := by
  cases t with
  | connError m =>
    exact ⟨"Error: " ++ m, errorMsg_ne_empty m, rfl, rfl, rfl⟩
  | response status body =>
    cases hrs : raisesForStatus status with
    | true =>
      refine ⟨"Error: " ++ httpErrorMessage status, errorMsg_ne_empty _, ?_, ?_, ?_⟩ <;>
        simp [apiGetResult, runGet, runHistory, runProcess, hrs]
    | false =>
      have hb : body = none := by
        cases body with
        | none => rfl
        | some entries => simp [transportFails, hrs] at h
      subst hb
      refine ⟨"Error: Expecting value: line 1 column 1 (char 0)", by decide, ?_, ?_, ?_⟩ <;>
        simp [apiGetResult, runGet, runHistory, runProcess, hrs]

/-- Witness for C2 at a concrete connection-refused transport. -/
theorem claim_C2_transport_failure_witness :
    ∃ msg, msg ≠ "" ∧ apiGetResult (.connError "connection refused") = .error msg ∧
      runGet (.connError "connection refused") = ⟨[], [msg], .exited 1⟩ ∧
      runHistory false (.connError "connection refused") = ⟨[], [msg], .exited 1⟩ :=
  claim_C2_transport_failure (.connError "connection refused") false (by decide)

/-- Claim C2 as stated is false: status 304 is not 2xx, yet
`raise_for_status` does not raise for it, so a 304 response with a
well-formed JSON body is returned to the handler and the `get` command
prints to stdout and exits 0 instead of failing. -/
theorem claim_C2_counterexample :
    is2xx 304 = false ∧
    apiGetResult (.response 304 (some [])) = .ok [] ∧
    runGet (.response 304 (some [])) = ⟨["No data available"], [], .exited 0⟩ := by
  refine ⟨by decide, rfl, rfl⟩

/-- Claim C3: every request goes to `/api/v1/entries.json` on the configured
host and port with header `API-SECRET` set to the secret; the `get` command
sends exactly `count=1`, and the `history` command sends the `$gte`/`$lte`
bounds as naive local isoformat strings with a literal `Z` appended (shown
concretely for epoch second 1704067200) plus `count=10000`. -/
theorem claim_C3_wire_protocol (host port secret : String) (now daysAgo period : Int) :
    cmdGetRequest host port secret =
      ⟨"http://" ++ host ++ ":" ++ port ++ "/api/v1/entries.json",
       [("API-SECRET", secret)], [("count", "1")]⟩ ∧
    cmdHistoryRequest host port secret now daysAgo period =
      ⟨"http://" ++ host ++ ":" ++ port ++ "/api/v1/entries.json",
       [("API-SECRET", secret)],
       [("find[dateString][$gte]", naiveIsoformat (now - daysAgo * 86400 - period * 60) ++ "Z"),
        ("find[dateString][$lte]", naiveIsoformat (now - daysAgo * 86400) ++ "Z"),
        ("count", "10000")]⟩ ∧
    naiveIsoformat 1704067200 ++ "Z" = "2024-01-01T00:00:00Z" := by
  exact ⟨rfl, rfl, by decide⟩

/-- Claim C4: an empty result set is not an error — `get` prints exactly
`No data available` and exits 0, and `history` prints zero lines and exits 0
in both output modes. -/
theorem claim_C4_empty_result (jsonl : Bool) :
    runGet (.response 200 (some [])) = ⟨["No data available"], [], .exited 0⟩ ∧
    runHistory jsonl (.response 200 (some [])) = ⟨[], [], .exited 0⟩ := by
  cases jsonl <;> exact ⟨rfl, rfl⟩

/-- Claim C5: for every non-empty `get` response whose first entry's
`dateString` parses after `Z`-replacement, exactly one line is printed —
the parsed timestamp's isoformat, the sgv value or `N/A`, the units or
`mg/dL`, the direction or the empty string, space-separated; concretely the
documented example entry prints `2024-01-01T00:00:00+00:00 120 mg/dL Flat`. -/
theorem claim_C5_get_line (e : Entry) (rest : List Entry) (ds : String) (ts : PyDateTime)
    (h1 : dictLookup e "dateString" = some (.str ds))
    (h2 : fromisoformat (pyReplaceChar ds 'Z' "+00:00") = some ts) :
    cmdGetOutput (e :: rest) = .finished
      [pyIsoformat ts ++ " " ++ pyStr (pyGet e "sgv" (.str "N/A")) ++ " "
        ++ pyStr (pyGet e "units" (.str "mg/dL")) ++ " "
        ++ pyStr (pyGet e "direction" (.str ""))] ∧
    cmdGetOutput [[("dateString", .str "2024-01-01T00:00:00Z"), ("sgv", .num 120),
        ("units", .str "mg/dL"), ("direction", .str "Flat")]] =
      .finished ["2024-01-01T00:00:00+00:00 120 mg/dL Flat"] := by
  refine ⟨?_, by decide⟩
  simp [cmdGetOutput, h1, h2]

/-- Witness for C5 at the documented example entry. -/
theorem claim_C5_get_line_witness :
    cmdGetOutput [[("dateString", JVal.str "2024-01-01T00:00:00Z"), ("sgv", JVal.num 120),
        ("units", JVal.str "mg/dL"), ("direction", JVal.str "Flat")]] =
      CmdOut.finished ["2024-01-01T00:00:00+00:00 120 mg/dL Flat"] :=
  (claim_C5_get_line
    [("dateString", JVal.str "2024-01-01T00:00:00Z"), ("sgv", JVal.num 120),
     ("units", JVal.str "mg/dL"), ("direction", JVal.str "Flat")] []
    "2024-01-01T00:00:00Z" ⟨2024, 1, 1, 0, 0, 0, 0, some 0⟩ (by decide) (by decide)).2

/-- Claim C6: in JSONL mode each input entry yields exactly one output line,
in input order; each line is `json.dumps` of an object with exactly the keys
`timestamp`, `sgv`, `units`, `direction`; and absent `units` / `direction`
take the defaults `mg/dL` / the empty string. -/
theorem claim_C6_jsonl (entries : List Entry) (e : Entry)
    (hu : dictLookup e "units" = none) (hd : dictLookup e "direction" = none) :
    cmdHistoryOutput true entries = .finished (entries.map jsonlLine) ∧
    (entries.map jsonlLine).length = entries.length ∧
    jsonlLine e = jsonDumps (jsonlObj e) ∧
    (jsonlObj e).map Prod.fst = ["timestamp", "sgv", "units", "direction"] ∧
    dictLookup (jsonlObj e) "units" = some (.str "mg/dL") ∧
    dictLookup (jsonlObj e) "direction" = some (.str "") := by
  refine ⟨rfl, by simp, rfl, rfl, ?_, ?_⟩
  · simp only [dictLookup] at hu
    simp [dictLookup, jsonlObj, pyGet, List.lookup, hu]
  · simp only [dictLookup] at hd
    simp [dictLookup, jsonlObj, pyGet, List.lookup, hd]

/-- Witness for C6 at an entry carrying only a `dateString`. -/
theorem claim_C6_jsonl_witness :
    cmdHistoryOutput true [[("dateString", JVal.str "x")]] =
      CmdOut.finished [jsonlLine [("dateString", JVal.str "x")]] ∧
    dictLookup (jsonlObj [("dateString", JVal.str "x")]) "units" = some (JVal.str "mg/dL") ∧
    dictLookup (jsonlObj [("dateString", JVal.str "x")]) "direction" = some (JVal.str "") := by
  have h := claim_C6_jsonl [[("dateString", JVal.str "x")]]
    [("dateString", JVal.str "x")] (by decide) (by decide)
  exact ⟨h.1, h.2.2.2.2.1, h.2.2.2.2.2⟩

/-- Claim C7: for each of host, port and api-secret, an explicit CLI value
takes precedence over the corresponding environment variable, and a set
environment variable takes precedence over the built-in default
(`127.0.0.1`, `80`, `soilentgreenandblue`). -/
theorem claim_C7_precedence (env : Env) (v : String) :
    (∀ c, resolvedHost env (some c) = c) ∧
    (env "NIGHTSCOUT_HOST" = some v → resolvedHost env none = v) ∧
    (env "NIGHTSCOUT_HOST" = none → resolvedHost env none = "127.0.0.1") ∧
    (∀ c, resolvedPort env (some c) = c) ∧
    (env "NIGHTSCOUT_PORT" = some v → resolvedPort env none = v) ∧
    (env "NIGHTSCOUT_PORT" = none → resolvedPort env none = "80") ∧
    (∀ c, resolvedApiSecret env (some c) = c) ∧
    (env "NIGHTSCOUT_API_SECRET" = some v → resolvedApiSecret env none = v) ∧
    (env "NIGHTSCOUT_API_SECRET" = none → resolvedApiSecret env none = "soilentgreenandblue") := by
  refine ⟨fun c => rfl, fun h => ?_, fun h => ?_, fun c => rfl, fun h => ?_, fun h => ?_,
    fun c => rfl, fun h => ?_, fun h => ?_⟩ <;>
    simp [resolvedHost, resolvedPort, resolvedApiSecret, DEFAULT_HOST, DEFAULT_PORT,
      DEFAULT_API_SECRET, envGetD, h]

/-- Witness for C7: CLI beats environment, environment beats default, and
the built-in defaults apply when both are absent. -/
theorem claim_C7_precedence_witness :
    resolvedHost (fun k => if k = "NIGHTSCOUT_HOST" then some "envhost" else none)
      (some "example.org") = "example.org" ∧
    resolvedHost (fun k => if k = "NIGHTSCOUT_HOST" then some "envhost" else none)
      none = "envhost" ∧
    resolvedHost (fun _ => none) none = "127.0.0.1" ∧
    resolvedPort (fun _ => none) none = "80" ∧
    resolvedApiSecret (fun _ => none) none = "soilentgreenandblue" := by
  refine ⟨(claim_C7_precedence
      (fun k => if k = "NIGHTSCOUT_HOST" then some "envhost" else none) "envhost").1 "example.org",
    (claim_C7_precedence
      (fun k => if k = "NIGHTSCOUT_HOST" then some "envhost" else none) "envhost").2.1 (by simp),
    (claim_C7_precedence (fun _ => none) "envhost").2.2.1 rfl,
    (claim_C7_precedence (fun _ => none) "envhost").2.2.2.2.2.1 rfl,
    (claim_C7_precedence (fun _ => none) "envhost").2.2.2.2.2.2.2.2 rfl⟩

/-- Claim C8: in history's human-readable mode each entry prints exactly one
line containing, space-separated, its timestamp, its value or `N/A` when
`sgv` is absent, and its units or `mg/dL` when absent; the direction field is
not printed (adding one leaves the line unchanged). -/
theorem claim_C8_human (entries : List Entry) (e : Entry)
    (hs : dictLookup e "sgv" = none) (hu : dictLookup e "units" = none) :
    cmdHistoryOutput false entries = .finished (entries.map humanLine) ∧
    (entries.map humanLine).length = entries.length ∧
    (∀ e2, humanLine e2 = pyStr (pyGetNone e2 "dateString") ++ " "
      ++ pyStr (pyGet e2 "sgv" (.str "N/A")) ++ " "
      ++ pyStr (pyGet e2 "units" (.str "mg/dL"))) ∧
    humanLine e = pyStr (pyGetNone e "dateString") ++ " " ++ "N/A" ++ " " ++ "mg/dL" ∧
    (∀ e2 v, humanLine (("direction", v) :: e2) = humanLine e2) := by
  refine ⟨rfl, by simp, fun e2 => rfl, ?_, fun e2 v => ?_⟩
  · simp only [dictLookup] at hs hu
    simp [humanLine, pyGet, dictLookup, hs, hu, pyStr]
  · simp [humanLine, pyGetNone, pyGet, dictLookup, List.lookup]

/-- Witness for C8 at an entry with a timestamp but no `sgv` or `units`. -/
theorem claim_C8_human_witness :
    cmdHistoryOutput false [[("dateString", JVal.str "t")]] =
      CmdOut.finished [humanLine [("dateString", JVal.str "t")]] ∧
    humanLine [("dateString", JVal.str "t")] =
      pyStr (pyGetNone [("dateString", JVal.str "t")] "dateString")
        ++ " " ++ "N/A" ++ " " ++ "mg/dL" := by
  have h := claim_C8_human [[("dateString", JVal.str "t")]]
    [("dateString", JVal.str "t")] (by decide) (by decide)
  exact ⟨h.1, h.2.2.2.1⟩

/-- Claim C9: the `get` command reaches the first entry's `dateString` by
direct key lookup and a strict parse, so a non-empty response lacking the
key, or carrying an unparseable value, ends in an uncaught exception rather
than the `Error:` transport path; the `history` command uses defaulting
lookups and never ends in an uncaught exception, for any transport and mode. -/
theorem claim_C9_uncaught :
    (runGet (.response 200 (some [[]]))).outcome = .uncaught "KeyError: dateString" ∧
    (runGet (.response 200 (some [[("dateString", JVal.str "garbage")]]))).outcome =
      .uncaught "ValueError: Invalid isoformat string" ∧
    (∀ t jsonl exc, (runHistory jsonl t).outcome ≠ .uncaught exc) := by
  refine ⟨rfl, by decide, fun t jsonl exc => ?_⟩
  cases t with
  | connError m => simp [runHistory, runProcess, apiGetResult]
  | response status body =>
    cases hrs : raisesForStatus status with
    | true => simp [runHistory, runProcess, apiGetResult, hrs]
    | false =>
      cases body with
      | none => simp [runHistory, runProcess, apiGetResult, hrs]
      | some entries => simp [runHistory, runProcess, apiGetResult, hrs, cmdHistoryOutput]

/-- Witness for C9: a concrete `history` run does not end in the exception
the `get` command raises on the same malformed entry. -/
theorem claim_C9_uncaught_witness :
    (runHistory true (Transport.response 200 (some [[]]))).outcome ≠
      Outcome.uncaught "KeyError: dateString" :=
  claim_C9_uncaught.2.2 (Transport.response 200 (some [[]])) true "KeyError: dateString"

/-- Claim C10: in JSONL mode an absent `sgv` serialises as JSON `null` (not
the `N/A` placeholder of the text modes) and an absent `dateString` gives
`timestamp: null`; only `units` and `direction` receive defaults. Concretely
the empty entry's line is exactly the object with two nulls and the two
defaults. -/
theorem claim_C10_null_fields (e : Entry)
    (hs : dictLookup e "sgv" = none) (ht : dictLookup e "dateString" = none) :
    dictLookup (jsonlObj e) "sgv" = some JVal.null ∧
    dictLookup (jsonlObj e) "timestamp" = some JVal.null ∧
    jsonlLine [] =
      "\x7b\"timestamp\": null, \"sgv\": null, \"units\": \"mg/dL\", \"direction\": \"\"\x7d" := by
  refine ⟨?_, ?_, by decide⟩
  · simp only [dictLookup] at hs
    simp [dictLookup, jsonlObj, pyGetNone, List.lookup, hs]
  · simp only [dictLookup] at ht
    simp [dictLookup, jsonlObj, pyGetNone, List.lookup, ht]

/-- Witness for C10 at the empty entry. -/
theorem claim_C10_null_fields_witness :
    dictLookup (jsonlObj []) "sgv" = some JVal.null ∧
    dictLookup (jsonlObj []) "timestamp" = some JVal.null :=
  ⟨(claim_C10_null_fields [] rfl rfl).1, (claim_C10_null_fields [] rfl rfl).2.1⟩

end NightscoutCLI
